import Mathlib

/-!
Verification development for the hotel guest-flow MVP: a shallow embedding
of the backend chat/ticket controller (`chatController.js`) and of the staff
dashboard reconciler (`dashboard/page.tsx`), together with theorems about
classification fallback, multi-category guest ticket creation, ticket
listing, ticket grouping, bucket reconciliation and greeting filtering.
-/

namespace GuestFlow

/-- The closed status enumeration of a ticket. -/
inductive TicketStatus
  | raised
  | in_progress
  | completed
deriving DecidableEq, Repr

instance : BEq TicketStatus := ⟨fun a b => decide (a = b)⟩

/-- A chat message stored on a ticket.  Timestamps are modelled as
milliseconds since the epoch. -/
structure Message where
  content : String
  sender : String
  senderName : String
  timestamp : Nat
deriving DecidableEq, Repr

/-- The denormalized guest value stored on a ticket. -/
structure GuestRecord where
  name : String
  email : String
  phone : String
deriving DecidableEq, Repr

/-- A ticket record, with the fields used by both the backend controller and
the dashboard.  `createdAt`/`updatedAt` are epoch milliseconds. -/
structure Ticket where
  id : String
  room : String
  roomNumber : String
  category : Option String
  guestInfo : GuestRecord
  status : TicketStatus
  manager : String
  subject : String
  messages : List Message
  priority : String
  estimatedCompletion : Option String
  confidence : Rat
  createdAt : Nat
  updatedAt : Nat
deriving DecidableEq, Repr

/-- A room record, as consumed by `createGuestTicket` (id and manager). -/
structure Room where
  id : String
  number : String
  manager : String
deriving DecidableEq, Repr

/-- One entry of the classifier's `categories` array. -/
structure CategoryInfo where
  category : String
  message : String
  urgency : Option String
deriving DecidableEq, Repr

/-- The normalized response of the external classification API. -/
structure ClassificationResult where
  should_create_ticket : Bool
  categories : List CategoryInfo
  confidence : Rat
  reasoning : String
  suggested_priority : String
  estimated_completion_time : Option String
deriving DecidableEq, Repr

/-- The fixed fallback classification returned when the external call
throws (`classifyWithExternalAPI`, catch branch). -/
def fallbackClassification : ClassificationResult :=
  { should_create_ticket := false
    categories := []
    confidence := 0
    reasoning := "Classification service unavailable"
    suggested_priority := "low"
    estimated_completion_time := none }

/-- `classifyWithExternalAPI`: the external call is modelled as an
`Except` value — `ok` is the parsed response data, `error` is any thrown
failure (network error, non-success status, malformed payload).  On success
the response data is returned as-is; on any failure the fixed fallback is
returned and no exception escapes. -/
def classifyWithExternalAPI (message : String) (roomNumber : String)
    (apiCall : Except String ClassificationResult) : ClassificationResult :=
  match apiCall with
  | .ok r => r
  | .error _ => fallbackClassification

/-- Guest info as supplied in the request body of `POST /tickets/guest`. -/
structure GuestInfoInput where
  name : String
  email : Option String
  phone : Option String
deriving DecidableEq, Repr

/-- A `newTicket` event emitted to the managers channel. -/
structure NewTicketEvent where
  ticket : Ticket
  title : String
  message : String
deriving DecidableEq, Repr

/-- The JSON response of `createGuestTicket`, with its HTTP status code and
all fields any branch sets (fields absent in a branch are `none`). -/
structure GuestTicketResponse where
  status : Nat
  success : Bool
  message : String
  shouldCreateTicket : Option Bool
  isGreeting : Option Bool
  reasoning : Option String
  data : List Ticket
  ticketCount : Option Nat
  categories : Option (List String)
deriving DecidableEq, Repr

/-- The full observable outcome of one `createGuestTicket` request: the HTTP
response, the tickets persisted, the fan-out events emitted, and the trace
of per-category creation attempts (category of each `Ticket.create` call,
in order). -/
structure GuestTicketOutcome where
  response : GuestTicketResponse
  created : List Ticket
  events : List NewTicketEvent
  attempts : List String
deriving DecidableEq, Repr

/-- The ticket document built for one classified category inside the
creation loop of `createGuestTicket`. -/
def mkGuestTicket (room : Room) (roomNumber : String) (g : GuestInfoInput)
    (cr : ClassificationResult) (ci : CategoryInfo) (now : Nat)
    (newId : String) : Ticket :=
  { id := newId
    room := room.id
    roomNumber := roomNumber
    category := some ci.category
    guestInfo :=
      { name := g.name, email := g.email.getD "", phone := g.phone.getD "" }
    status := .raised
    manager := room.manager
    subject := ci.category.toUpper ++ " - Room " ++ roomNumber
    messages :=
      [{ content := ci.message, sender := "system", senderName := "System",
         timestamp := now }]
    priority :=
      match ci.urgency with
      | some u => if u = "" then "medium" else u
      | none => "medium"
    estimatedCompletion := cr.estimated_completion_time
    confidence := cr.confidence
    createdAt := now
    updatedAt := now }

/-- The `for (const categoryInfo of classification.categories)` loop of
`createGuestTicket`.  `persistOk i` says whether the i-th `Ticket.create`
call succeeds (a failed call is caught, logged, and the loop continues).
`ioLive` models `req.app.get("io")` being configured.  Returns the created
tickets, the emitted events, and the attempted categories, in order. -/
def createTicketsLoop (room : Room) (roomNumber : String) (g : GuestInfoInput)
    (cr : ClassificationResult) (ioLive : Bool) (persistOk : Nat → Bool)
    (now : Nat) (newIds : Nat → String) :
    List CategoryInfo → Nat → List Ticket × List NewTicketEvent × List String
  | [], _ => ([], [], [])
  | ci :: rest, i =>
    let tail := createTicketsLoop room roomNumber g cr ioLive persistOk now newIds rest (i + 1)
    if persistOk i then
      let t := mkGuestTicket room roomNumber g cr ci now (newIds i)
      let ev : NewTicketEvent :=
        { ticket := t
          title := "New Service Request"
          message := g.name ++ " from Room " ++ roomNumber ++ " needs " ++
            ci.category ++ " assistance" }
      (t :: tail.1, (if ioLive then ev :: tail.2.1 else tail.2.1), ci.category :: tail.2.2)
    else
      (tail.1, tail.2.1, ci.category :: tail.2.2)

/-- An empty response skeleton used by the error branches. -/
def emptyResponseFields : GuestTicketResponse :=
  { status := 0, success := false, message := "", shouldCreateTicket := none,
    isGreeting := none, reasoning := none, data := [], ticketCount := none,
    categories := none }

/-- `createGuestTicket` (`POST /tickets/guest`): validates the body, runs the
external classification, suppresses ticket creation for a declined
classification (greeting), looks up the room, then creates one ticket per
classified category, catching each per-category failure individually.
`apiCall` is the external classifier call outcome, `roomLookup` the result
of `Room.findOne({number: roomNumber})`. -/
def createGuestTicket (roomNumber : String) (g : GuestInfoInput)
    (initialMessage : String) (apiCall : Except String ClassificationResult)
    (roomLookup : Option Room) (ioLive : Bool) (persistOk : Nat → Bool)
    (now : Nat) (newIds : Nat → String) : GuestTicketOutcome :=
  if roomNumber = "" ∨ initialMessage = "" then
    { response :=
        { emptyResponseFields with
          status := 400
          success := false
          message := "Room number, guest info, and initial message are required" }
      created := [], events := [], attempts := [] }
  else
    let classification := classifyWithExternalAPI initialMessage roomNumber apiCall
    if classification.should_create_ticket = false then
      { response :=
          { emptyResponseFields with
            status := 200
            success := true
            message := "No ticket needed for this message"
            shouldCreateTicket := some false
            isGreeting := some true
            reasoning := some classification.reasoning }
        created := [], events := [], attempts := [] }
    else
      match roomLookup with
      | none =>
        { response :=
            { emptyResponseFields with
              status := 404
              success := false
              message := "Room not found" }
          created := [], events := [], attempts := [] }
      | some room =>
        let r := createTicketsLoop room roomNumber g classification ioLive
          persistOk now newIds classification.categories 0
        { response :=
            { status := 201
              success := true
              message := if r.1.length > 1 then
                  "Service requests created successfully"
                else "Service request created successfully"
              shouldCreateTicket := some true
              isGreeting := none
              reasoning := none
              data := r.1
              ticketCount := some r.1.length
              categories := some (classification.categories.map (·.category)) }
          created := r.1, events := r.2.1, attempts := r.2.2 }

/-- `getTickets` (`GET /tickets?status=&category=`): filter by the optional
status and category query parameters and sort by `createdAt` descending. -/
def ticketMatchesQuery (status : Option TicketStatus) (category : Option String)
    (t : Ticket) : Bool :=
  (match status with
   | none => true
   | some s => t.status == s) &&
  (match category with
   | none => true
   | some c => t.category == some c)

/-- The listing endpoint: `Ticket.find(query).sort({createdAt: -1})`. -/
def getTickets (db : List Ticket) (status : Option TicketStatus)
    (category : Option String) : List Ticket :=
  (db.filter (ticketMatchesQuery status category)).mergeSort
    (fun a b => decide (b.createdAt ≤ a.createdAt))

/-! ## Dashboard (staff board reconciler, `dashboard/page.tsx`) -/

/-- The 5-minute time slot of a creation timestamp:
`Math.floor(createdTime.getTime() / (5 * 60 * 1000))`. -/
def timeSlot (createdAt : Nat) : Nat := createdAt / (5 * 60 * 1000)

/-- The string group key used by `groupRelatedTickets`:
`` `${ticket.guestInfo.name}-${ticket.roomNumber}-${timeSlot}` ``. -/
def groupKey (t : Ticket) : String :=
  t.guestInfo.name ++ "-" ++ t.roomNumber ++ "-" ++ toString (timeSlot t.createdAt)

/-- Insertion into the `Map` of groups, preserving JS `Map` insertion order:
if an entry with the key exists, the ticket is pushed onto it, otherwise a
new entry is appended at the end. -/
def insertIntoGroups (key : String) (t : Ticket) :
    List (String × List Ticket) → List (String × List Ticket)
  | [] => [(key, [t])]
  | p :: rest =>
    if p.1 = key then (p.1, p.2 ++ [t]) :: rest
    else p :: insertIntoGroups key t rest

/-- `groupRelatedTickets`: build the key → tickets map over the input in
order, then return `Array.from(groups.values())`. -/
def groupRelatedTickets (tickets : List Ticket) : List (List Ticket) :=
  (tickets.foldl (fun acc t => insertIntoGroups (groupKey t) t acc) []).map (·.2)

/-- The related-tickets check of the ticket-detail dialog: the selected
ticket itself, or same guest name, same room number and creation timestamps
at most 5 minutes apart (symmetric distance). -/
def isRelatedTicket (selected t : Ticket) : Bool :=
  if t.id = selected.id then true
  else if t.guestInfo.name ≠ selected.guestInfo.name then false
  else if t.roomNumber ≠ selected.roomNumber then false
  else decide (max t.createdAt selected.createdAt -
    min t.createdAt selected.createdAt ≤ 5 * 60 * 1000)

/-- The dashboard's per-status bucket state (`tickets` record). -/
structure Buckets where
  raised : List Ticket
  in_progress : List Ticket
  completed : List Ticket
deriving DecidableEq, Repr

/-- Indexing the bucket record by status (`tickets[status]`). -/
def bucketGet (b : Buckets) : TicketStatus → List Ticket
  | .raised => b.raised
  | .in_progress => b.in_progress
  | .completed => b.completed

/-- One step of the `reduce` in `fetchData`: push the ticket onto the bucket
named by its status (`acc[ticket.status].push(ticket)`). -/
def bucketPush (acc : Buckets) (t : Ticket) : Buckets :=
  match t.status with
  | .raised => { acc with raised := acc.raised ++ [t] }
  | .in_progress => { acc with in_progress := acc.in_progress ++ [t] }
  | .completed => { acc with completed := acc.completed ++ [t] }

/-- The `reduce` of `fetchData` that groups the fetched ticket list by
`status`, starting from `{ raised: [], in_progress: [], completed: [] }`. -/
def groupByStatus (ts : List Ticket) : Buckets :=
  ts.foldl bucketPush { raised := [], in_progress := [], completed := [] }

/-- The dashboard stats record set by `fetchData`. -/
structure DashboardStats where
  totalRooms : Nat
  raisedTickets : Nat
  inProgressTickets : Nat
  completedTickets : Nat
deriving DecidableEq, Repr

/-- `setStats` in `fetchData`: bucket lengths plus room count. -/
def statsOf (b : Buckets) (totalRooms : Nat) : DashboardStats :=
  { totalRooms := totalRooms
    raisedTickets := b.raised.length
    inProgressTickets := b.in_progress.length
    completedTickets := b.completed.length }

/-- The new-ticket toast logic of `fetchData`: with `prevRaised` the prior
`raised` bucket and `snapshot` the freshly fetched ticket list, toasts fire
only when the fetched raised count strictly exceeds the prior raised count
and the prior count is positive; then one toast per fetched raised ticket
whose id is absent from the prior raised bucket. -/
def newTicketToasts (prevRaised : List Ticket) (snapshot : List Ticket) :
    List Ticket :=
  let currentRaisedCount := prevRaised.length
  let newRaisedCount := (snapshot.filter (fun t => t.status == .raised)).length
  if newRaisedCount > currentRaisedCount ∧ currentRaisedCount > 0 then
    snapshot.filter (fun t =>
      t.status == .raised && !(prevRaised.any (fun e => e.id == t.id)))
  else []

/-! ## Dashboard greeting filter and column filtering -/

/-- The greeting words of the regex in `getFilteredTickets`. -/
def greetingWords : List String :=
  ["hi", "hello", "hey", "good morning", "good afternoon", "good evening",
   "greetings", "how are you", "nice to meet you"]

/-- The tail admitted after a greeting word by the regex `\s*[!.]?$`: any
run of whitespace followed by at most one `!` or `.`. -/
def greetingTailOk : List Char → Bool
  | [] => true
  | c :: cs =>
    if c.isWhitespace then greetingTailOk cs
    else (c == '!' || c == '.') && cs.isEmpty

/-- Matching one alternative of the greeting regex against a string. -/
def matchGreetingWord : List Char → List Char → Bool
  | [], rest => greetingTailOk rest
  | _ :: _, [] => false
  | c :: g, d :: s => c == d && matchGreetingWord g s

/-- The test of the anchored greeting regex
`/^(hi|hello|hey|good morning|...)\s*[!.]?$/i` on an (already lowercased,
trimmed) character list. -/
def greetingRegexTest (cs : List Char) : Bool :=
  greetingWords.any (fun g => matchGreetingWord g.data cs)

/-- `const firstMessage = ticket.messages?.[0]?.content?.toLowerCase() || ""`,
as a lowercased character list. -/
def firstMessageLower (t : Ticket) : List Char :=
  match t.messages with
  | [] => []
  | m :: _ => m.content.data.map Char.toLower

/-- Trimming leading and trailing whitespace (JS `String.trim()`). -/
def trimChars (cs : List Char) : List Char :=
  ((cs.dropWhile Char.isWhitespace).reverse.dropWhile Char.isWhitespace).reverse

/-- The greeting check of `getFilteredTickets` on one ticket:
the regex tested on `firstMessage.trim()`. -/
def ticketIsGreeting (t : Ticket) : Bool :=
  greetingRegexTest (trimChars (firstMessageLower t))

/-- Substring check on char lists (JS `String.includes`), helper. -/
def isPrefixList : List Char → List Char → Bool
  | [], _ => true
  | _ :: _, [] => false
  | c :: q, d :: s => c == d && isPrefixList q s

/-- Substring check on char lists (JS `String.includes`). -/
def isInfixList : List Char → List Char → Bool
  | q, [] => q.isEmpty
  | q, d :: s => isPrefixList q (d :: s) || isInfixList q s

/-- The search filter of `getFilteredTickets`: JS `includes` on the
lowercased guest name, the raw room number, and the lowercased first
message content. -/
def matchesSearch (query : String) (t : Ticket) : Bool :=
  isInfixList (query.data.map Char.toLower)
    (t.guestInfo.name.data.map Char.toLower) ||
  isInfixList query.data t.roomNumber.data ||
  isInfixList (query.data.map Char.toLower)
    ((match t.messages with
      | [] => ""
      | m :: _ => m.content).data.map Char.toLower)

/-- `ticket.category || "reception"` (`getTicketCategory`), with the JS
falsy check on the empty string. -/
def getTicketCategory (t : Ticket) : String :=
  match t.category with
  | none => "reception"
  | some c => if c = "" then "reception" else c

/-- `getFilteredTickets(status)`: starting from the bucket of the given
status, drop greeting tickets, then apply the search, room and category
filters. -/
def getFilteredTickets (b : Buckets) (searchQuery : String)
    (filterRoom : Option String) (selectedCategories : List String)
    (status : TicketStatus) : List Ticket :=
  let l := bucketGet b status
  let l := l.filter (fun t => !(ticketIsGreeting t))
  let l := if searchQuery = "" then l else l.filter (matchesSearch searchQuery)
  let l := match filterRoom with
    | none => l
    | some r => l.filter (fun t => t.roomNumber == r)
  l.filter (fun t => selectedCategories.contains (getTicketCategory t))

/-! ## Sample data for witnesses and counterexamples -/

/-- A sample guest body for `POST /tickets/guest`. -/
def sampleGuest : GuestInfoInput :=
  { name := "Guest-101", email := some "guest.101@hotel.com",
    phone := some "Not provided" }

/-- A sample room record. -/
def sampleRoom : Room := { id := "r1", number := "101", manager := "m1" }

/-- A sample classified category (food and beverage). -/
def sampleCatFB : CategoryInfo :=
  { category := "service_fb", message := "Guest needs coffee",
    urgency := some "medium" }

/-- A sample classified category (housekeeping). -/
def sampleCatHK : CategoryInfo :=
  { category := "housekeeping", message := "Guest needs clean towels",
    urgency := some "high" }

/-- A sample two-category classifier response with
`should_create_ticket = true`. -/
def sampleClassification : ClassificationResult :=
  { should_create_ticket := true
    categories := [sampleCatFB, sampleCatHK]
    confidence := 1
    reasoning := "guest service request"
    suggested_priority := "medium"
    estimated_completion_time := none }

/-- A sample declined classifier response (greeting). -/
def sampleGreetingClassification : ClassificationResult :=
  { should_create_ticket := false
    categories := []
    confidence := 1
    reasoning := "greeting"
    suggested_priority := "low"
    estimated_completion_time := none }

/-- A sample raised ticket, created at t = 4 minutes. -/
def sampleTicketA : Ticket :=
  { id := "a"
    room := "r1"
    roomNumber := "101"
    category := some "service_fb"
    guestInfo := { name := "Guest-101", email := "", phone := "" }
    status := .raised
    manager := "m1"
    subject := "SERVICE_FB - Room 101"
    messages := [{ content := "I need coffee", sender := "system", senderName := "System", timestamp := 240000 }]
    priority := "medium"
    estimatedCompletion := none
    confidence := 1
    createdAt := 240000
    updatedAt := 240000 }

/-- A sample raised ticket for the same guest and room, created at
t = 7 minutes (3 minutes after `sampleTicketA`). -/
def sampleTicketB : Ticket :=
  { sampleTicketA with
    id := "b"
    category := some "housekeeping"
    subject := "HOUSEKEEPING - Room 101"
    messages := [{ content := "clean towels please", sender := "system", senderName := "System", timestamp := 420000 }]
    createdAt := 420000
    updatedAt := 420000 }

/-- A sample ticket whose first message is a greeting. -/
def sampleGreetingTicket : Ticket :=
  { sampleTicketA with
    id := "g"
    category := some "reception"
    messages := [{ content := "Hello!", sender := "guest", senderName := "Guest-101", timestamp := 0 }] }

/-! ## Lemmas about the creation loop -/

/-- The creation loop attempts every classified category exactly once, in
order, regardless of which persistence calls fail. -/
theorem createTicketsLoop_attempts (room : Room) (roomNumber : String)
    (g : GuestInfoInput) (cr : ClassificationResult) (ioLive : Bool)
    (persistOk : Nat → Bool) (now : Nat) (newIds : Nat → String) :
    ∀ (cis : List CategoryInfo) (i : Nat),
      (createTicketsLoop room roomNumber g cr ioLive persistOk now newIds cis i).2.2
        = cis.map (·.category) := by
  intro cis
  induction cis with
  | nil => intro i; rfl
  | cons ci rest ih =>
    intro i
    simp only [createTicketsLoop, List.map_cons]
    split
    · simp [ih]
    · simp [ih]

/-- The creation loop persists at most one ticket per classified category. -/
theorem createTicketsLoop_created_length (room : Room) (roomNumber : String)
    (g : GuestInfoInput) (cr : ClassificationResult) (ioLive : Bool)
    (persistOk : Nat → Bool) (now : Nat) (newIds : Nat → String) :
    ∀ (cis : List CategoryInfo) (i : Nat),
      (createTicketsLoop room roomNumber g cr ioLive persistOk now newIds cis i).1.length
        ≤ cis.length := by
  intro cis
  induction cis with
  | nil => intro i; simp [createTicketsLoop]
  | cons ci rest ih =>
    intro i
    simp only [createTicketsLoop, List.length_cons]
    split
    · simpa using Nat.succ_le_succ (ih (i + 1))
    · exact Nat.le_succ_of_le (ih (i + 1))

/-- When every persistence call from index `i` on succeeds, the created
tickets carry exactly the classified categories, in order. -/
theorem createTicketsLoop_all_ok (room : Room) (roomNumber : String)
    (g : GuestInfoInput) (cr : ClassificationResult) (ioLive : Bool)
    (persistOk : Nat → Bool) (now : Nat) (newIds : Nat → String) :
    ∀ (cis : List CategoryInfo) (i : Nat),
      (∀ j, i ≤ j → persistOk j = true) →
      (createTicketsLoop room roomNumber g cr ioLive persistOk now newIds cis i).1.map
          (·.category) = cis.map (fun c => some c.category) := by
  intro cis
  induction cis with
  | nil => intro i _; rfl
  | cons ci rest ih =>
    intro i hok
    simp only [createTicketsLoop, List.map_cons]
    rw [if_pos (hok i (Nat.le_refl i))]
    simp only [List.map_cons]
    rw [ih (i + 1) (fun j hj => hok j (Nat.le_of_succ_le hj))]
    rfl

/-- A successful `createGuestTicket` request (non-empty body fields,
classifier accepts, room found) unfolds to the 201 branch built from the
creation loop. -/
theorem createGuestTicket_success_unfold (roomNumber : String)
    (g : GuestInfoInput) (initialMessage : String)
    (apiCall : Except String ClassificationResult) (room : Room)
    (ioLive : Bool) (persistOk : Nat → Bool) (now : Nat) (newIds : Nat → String)
    (hrn : roomNumber ≠ "") (him : initialMessage ≠ "")
    (hcls : (classifyWithExternalAPI initialMessage roomNumber apiCall).should_create_ticket = true) :
    createGuestTicket roomNumber g initialMessage apiCall (some room) ioLive
        persistOk now newIds =
      { response :=
          { status := 201
            success := true
            message := if (createTicketsLoop room roomNumber g
                (classifyWithExternalAPI initialMessage roomNumber apiCall)
                ioLive persistOk now newIds
                (classifyWithExternalAPI initialMessage roomNumber apiCall).categories
                0).1.length > 1 then
                "Service requests created successfully"
              else "Service request created successfully"
            shouldCreateTicket := some true
            isGreeting := none
            reasoning := none
            data := (createTicketsLoop room roomNumber g
              (classifyWithExternalAPI initialMessage roomNumber apiCall)
              ioLive persistOk now newIds
              (classifyWithExternalAPI initialMessage roomNumber apiCall).categories
              0).1
            ticketCount := some (createTicketsLoop room roomNumber g
              (classifyWithExternalAPI initialMessage roomNumber apiCall)
              ioLive persistOk now newIds
              (classifyWithExternalAPI initialMessage roomNumber apiCall).categories
              0).1.length
            categories := some
              ((classifyWithExternalAPI initialMessage roomNumber apiCall).categories.map
                (·.category)) }
        created := (createTicketsLoop room roomNumber g
          (classifyWithExternalAPI initialMessage roomNumber apiCall)
          ioLive persistOk now newIds
          (classifyWithExternalAPI initialMessage roomNumber apiCall).categories
          0).1
        events := (createTicketsLoop room roomNumber g
          (classifyWithExternalAPI initialMessage roomNumber apiCall)
          ioLive persistOk now newIds
          (classifyWithExternalAPI initialMessage roomNumber apiCall).categories
          0).2.1
        attempts := (createTicketsLoop room roomNumber g
          (classifyWithExternalAPI initialMessage roomNumber apiCall)
          ioLive persistOk now newIds
          (classifyWithExternalAPI initialMessage roomNumber apiCall).categories
          0).2.2 } := by
  have hcond : ¬(roomNumber = "" ∨ initialMessage = "") := by
    intro h
    exact h.elim (fun h1 => hrn h1) (fun h2 => him h2)
  simp only [createGuestTicket, if_neg hcond, hcls]
  simp

/-! ## Claim theorems -/

/-- C2: for every input message and room number, if the external classifier
call throws, `classifyWithExternalAPI` returns exactly the fixed fallback
(`should_create_ticket = false`, empty categories, confidence 0, reasoning
"Classification service unavailable").  The embedding is a total function,
so no exception reaches the caller. -/
theorem classify_returns_fallback_on_error (message roomNumber e : String) :
    classifyWithExternalAPI message roomNumber (.error e) = fallbackClassification ∧
    (classifyWithExternalAPI message roomNumber (.error e)).should_create_ticket = false ∧
    (classifyWithExternalAPI message roomNumber (.error e)).categories = [] ∧
    (classifyWithExternalAPI message roomNumber (.error e)).confidence = 0 ∧
    (classifyWithExternalAPI message roomNumber (.error e)).reasoning =
      "Classification service unavailable" :=
  ⟨rfl, rfl, rfl, rfl, rfl⟩

/-- C1: when the classification returns `should_create_ticket = true` with K
categories and the room exists, `createGuestTicket` makes exactly one
ticket-creation attempt per category (in order), a failed attempt does not
abort the remaining ones, the number of persisted tickets is at most K, and
the response's `ticketCount` equals the number of tickets actually
created. -/
theorem createGuestTicket_one_attempt_per_category (roomNumber : String)
    (g : GuestInfoInput) (initialMessage : String)
    (apiCall : Except String ClassificationResult) (room : Room)
    (ioLive : Bool) (persistOk : Nat → Bool) (now : Nat) (newIds : Nat → String)
    (hrn : roomNumber ≠ "") (him : initialMessage ≠ "")
    (hcls : (classifyWithExternalAPI initialMessage roomNumber apiCall).should_create_ticket = true) :
    (createGuestTicket roomNumber g initialMessage apiCall (some room) ioLive
        persistOk now newIds).attempts =
      (classifyWithExternalAPI initialMessage roomNumber apiCall).categories.map
        (·.category) ∧
    (createGuestTicket roomNumber g initialMessage apiCall (some room) ioLive
        persistOk now newIds).created.length ≤
      (classifyWithExternalAPI initialMessage roomNumber apiCall).categories.length ∧
    (createGuestTicket roomNumber g initialMessage apiCall (some room) ioLive
        persistOk now newIds).response.ticketCount =
      some (createGuestTicket roomNumber g initialMessage apiCall (some room)
        ioLive persistOk now newIds).created.length ∧
    (createGuestTicket roomNumber g initialMessage apiCall (some room) ioLive
        persistOk now newIds).response.status = 201 := by
  rw [createGuestTicket_success_unfold roomNumber g initialMessage apiCall room
    ioLive persistOk now newIds hrn him hcls]
  refine ⟨?_, ?_, rfl, rfl⟩
  · exact createTicketsLoop_attempts room roomNumber g _ ioLive persistOk now newIds _ 0
  · exact createTicketsLoop_created_length room roomNumber g _ ioLive persistOk now newIds _ 0

/-- Witness for C1: two classified categories, the first persistence call
fails, the second succeeds; both categories are attempted, one ticket is
created, and `ticketCount` is 1. -/
theorem createGuestTicket_one_attempt_per_category_witness :
    (createGuestTicket "101" sampleGuest "I need coffee and clean towels"
        (.ok sampleClassification) (some sampleRoom) true (fun i => i != 0) 0
        (fun i => toString i)).attempts =
      (classifyWithExternalAPI "I need coffee and clean towels" "101"
        (.ok sampleClassification)).categories.map (·.category) ∧
    (createGuestTicket "101" sampleGuest "I need coffee and clean towels"
        (.ok sampleClassification) (some sampleRoom) true (fun i => i != 0) 0
        (fun i => toString i)).created.length ≤
      (classifyWithExternalAPI "I need coffee and clean towels" "101"
        (.ok sampleClassification)).categories.length ∧
    (createGuestTicket "101" sampleGuest "I need coffee and clean towels"
        (.ok sampleClassification) (some sampleRoom) true (fun i => i != 0) 0
        (fun i => toString i)).response.ticketCount =
      some (createGuestTicket "101" sampleGuest "I need coffee and clean towels"
        (.ok sampleClassification) (some sampleRoom) true (fun i => i != 0) 0
        (fun i => toString i)).created.length ∧
    (createGuestTicket "101" sampleGuest "I need coffee and clean towels"
        (.ok sampleClassification) (some sampleRoom) true (fun i => i != 0) 0
        (fun i => toString i)).response.status = 201 :=
  createGuestTicket_one_attempt_per_category "101" sampleGuest
    "I need coffee and clean towels" (.ok sampleClassification) sampleRoom true
    (fun i => i != 0) 0 (fun i => toString i) (by decide) (by decide) rfl

/-- C3: when the classification reports `should_create_ticket = false`,
`createGuestTicket` creates zero tickets, emits zero fan-out events, and
returns HTTP 200 with `success = true`, `shouldCreateTicket = false` and
`isGreeting = true`. -/
theorem createGuestTicket_greeting_no_tickets (roomNumber : String)
    (g : GuestInfoInput) (initialMessage : String)
    (apiCall : Except String ClassificationResult) (roomLookup : Option Room)
    (ioLive : Bool) (persistOk : Nat → Bool) (now : Nat) (newIds : Nat → String)
    (hrn : roomNumber ≠ "") (him : initialMessage ≠ "")
    (hcls : (classifyWithExternalAPI initialMessage roomNumber apiCall).should_create_ticket = false) :
    (createGuestTicket roomNumber g initialMessage apiCall roomLookup ioLive
        persistOk now newIds).created = [] ∧
    (createGuestTicket roomNumber g initialMessage apiCall roomLookup ioLive
        persistOk now newIds).events = [] ∧
    (createGuestTicket roomNumber g initialMessage apiCall roomLookup ioLive
        persistOk now newIds).response.status = 200 ∧
    (createGuestTicket roomNumber g initialMessage apiCall roomLookup ioLive
        persistOk now newIds).response.success = true ∧
    (createGuestTicket roomNumber g initialMessage apiCall roomLookup ioLive
        persistOk now newIds).response.shouldCreateTicket = some false ∧
    (createGuestTicket roomNumber g initialMessage apiCall roomLookup ioLive
        persistOk now newIds).response.isGreeting = some true := by
  have hcond : ¬(roomNumber = "" ∨ initialMessage = "") := by
    intro h
    exact h.elim (fun h1 => hrn h1) (fun h2 => him h2)
  simp only [createGuestTicket, if_neg hcond, hcls]
  simp

/-- Witness for C3: the classifier declines a "Good morning" message (here
via the fallback of a failed call); no ticket, no event, 200 with the
greeting flags. -/
theorem createGuestTicket_greeting_no_tickets_witness :
    (createGuestTicket "101" sampleGuest "Good morning" (.error "down")
        (some sampleRoom) true (fun _ => true) 0 (fun _ => "t")).created = [] ∧
    (createGuestTicket "101" sampleGuest "Good morning" (.error "down")
        (some sampleRoom) true (fun _ => true) 0 (fun _ => "t")).events = [] ∧
    (createGuestTicket "101" sampleGuest "Good morning" (.error "down")
        (some sampleRoom) true (fun _ => true) 0 (fun _ => "t")).response.status = 200 ∧
    (createGuestTicket "101" sampleGuest "Good morning" (.error "down")
        (some sampleRoom) true (fun _ => true) 0 (fun _ => "t")).response.success = true ∧
    (createGuestTicket "101" sampleGuest "Good morning" (.error "down")
        (some sampleRoom) true (fun _ => true) 0
        (fun _ => "t")).response.shouldCreateTicket = some false ∧
    (createGuestTicket "101" sampleGuest "Good morning" (.error "down")
        (some sampleRoom) true (fun _ => true) 0
        (fun _ => "t")).response.isGreeting = some true :=
  createGuestTicket_greeting_no_tickets "101" sampleGuest "Good morning"
    (.error "down") (some sampleRoom) true (fun _ => true) 0 (fun _ => "t")
    (by decide) (by decide) rfl

/-- C9: the greeting check precedes the room-existence check.  When the
classification declines (and the body is well-formed), the outcome is the
200 greeting response and is independent of the room lookup result — the
same outcome for a nonexistent room; and a 404 response is only reachable
when `should_create_ticket = true`. -/
theorem createGuestTicket_greeting_check_first (roomNumber : String)
    (g : GuestInfoInput) (initialMessage : String)
    (apiCall : Except String ClassificationResult) (ioLive : Bool)
    (persistOk : Nat → Bool) (now : Nat) (newIds : Nat → String) :
    ((classifyWithExternalAPI initialMessage roomNumber apiCall).should_create_ticket = false →
      roomNumber ≠ "" → initialMessage ≠ "" →
      ∀ roomLookup : Option Room,
        createGuestTicket roomNumber g initialMessage apiCall roomLookup ioLive
            persistOk now newIds =
          createGuestTicket roomNumber g initialMessage apiCall none ioLive
            persistOk now newIds ∧
        (createGuestTicket roomNumber g initialMessage apiCall roomLookup ioLive
            persistOk now newIds).response.status = 200 ∧
        (createGuestTicket roomNumber g initialMessage apiCall roomLookup ioLive
            persistOk now newIds).response.isGreeting = some true) ∧
    (∀ roomLookup : Option Room,
      (createGuestTicket roomNumber g initialMessage apiCall roomLookup ioLive
          persistOk now newIds).response.status = 404 →
      (classifyWithExternalAPI initialMessage roomNumber apiCall).should_create_ticket = true) := by
  constructor
  · intro hcls hrn him roomLookup
    have hcond : ¬(roomNumber = "" ∨ initialMessage = "") := by
      intro h
      exact h.elim (fun h1 => hrn h1) (fun h2 => him h2)
    refine ⟨?_, ?_, ?_⟩ <;> simp only [createGuestTicket, if_neg hcond, hcls] <;> simp
  · intro roomLookup
    by_cases hcond : roomNumber = "" ∨ initialMessage = ""
    · simp [createGuestTicket, hcond, emptyResponseFields]
    · by_cases hcls : (classifyWithExternalAPI initialMessage roomNumber apiCall).should_create_ticket = false
      · simp [createGuestTicket, hcond, hcls, emptyResponseFields]
      · intro _
        cases hb : (classifyWithExternalAPI initialMessage roomNumber apiCall).should_create_ticket
        · exact absurd hb hcls
        · rfl

/-- Witness for C9: a declined fallback classification yields the same 200
greeting outcome whether or not the room exists, and a 404 response (room
`none`, classifier accepts) implies the classifier accepted. -/
theorem createGuestTicket_greeting_check_first_witness :
    (createGuestTicket "101" sampleGuest "Good morning" (.error "down")
        (some sampleRoom) true (fun _ => true) 0 (fun _ => "t") =
      createGuestTicket "101" sampleGuest "Good morning" (.error "down") none
        true (fun _ => true) 0 (fun _ => "t")) ∧
    (createGuestTicket "101" sampleGuest "Good morning" (.error "down")
        (some sampleRoom) true (fun _ => true) 0 (fun _ => "t")).response.status = 200 ∧
    (createGuestTicket "101" sampleGuest "Good morning" (.error "down")
        (some sampleRoom) true (fun _ => true) 0
        (fun _ => "t")).response.isGreeting = some true ∧
    (classifyWithExternalAPI "I need coffee" "101"
        (.ok sampleClassification)).should_create_ticket = true := by
  have h1 := (createGuestTicket_greeting_check_first "101" sampleGuest
    "Good morning" (.error "down") true (fun _ => true) 0 (fun _ => "t")).1
    rfl (by decide) (by decide) (some sampleRoom)
  have h2 := (createGuestTicket_greeting_check_first "101" sampleGuest
    "I need coffee" (.ok sampleClassification) true (fun _ => true) 0
    (fun _ => "t")).2 none rfl
  exact ⟨h1.1, h1.2.1, h1.2.2, h2⟩

/-- Counterexample to C6: with two classified categories of which only the
second persists, the created tickets carry only `housekeeping`, yet the 201
response's `categories` field still lists both classified categories — it
does not list "exactly the categories of the tickets actually created". -/
theorem createGuestTicket_response_categories_counterexample :
    (createGuestTicket "101" sampleGuest "I need coffee and clean towels"
        (.ok sampleClassification) (some sampleRoom) true (fun i => i != 0) 0
        (fun i => toString i)).created.map (·.category) = [some "housekeeping"] ∧
    (createGuestTicket "101" sampleGuest "I need coffee and clean towels"
        (.ok sampleClassification) (some sampleRoom) true (fun i => i != 0) 0
        (fun i => toString i)).response.ticketCount = some 1 ∧
    (createGuestTicket "101" sampleGuest "I need coffee and clean towels"
        (.ok sampleClassification) (some sampleRoom) true (fun i => i != 0) 0
        (fun i => toString i)).response.categories =
      some ["service_fb", "housekeeping"] ∧
    (createGuestTicket "101" sampleGuest "I need coffee and clean towels"
        (.ok sampleClassification) (some sampleRoom) true (fun i => i != 0) 0
        (fun i => toString i)).response.categories ≠ some ["housekeeping"] := by
  refine ⟨rfl, rfl, rfl, ?_⟩
  decide

/-- C6 (amended): the `categories` field of the 201 response lists exactly
the categories of the classification result (all classified categories);
it coincides with the categories of the tickets actually created only when
every per-category persistence call succeeds. -/
theorem createGuestTicket_response_categories (roomNumber : String)
    (g : GuestInfoInput) (initialMessage : String)
    (apiCall : Except String ClassificationResult) (room : Room)
    (ioLive : Bool) (persistOk : Nat → Bool) (now : Nat) (newIds : Nat → String)
    (hrn : roomNumber ≠ "") (him : initialMessage ≠ "")
    (hcls : (classifyWithExternalAPI initialMessage roomNumber apiCall).should_create_ticket = true) :
    (createGuestTicket roomNumber g initialMessage apiCall (some room) ioLive
        persistOk now newIds).response.categories =
      some ((classifyWithExternalAPI initialMessage roomNumber apiCall).categories.map
        (·.category)) ∧
    ((∀ j, persistOk j = true) →
      (createGuestTicket roomNumber g initialMessage apiCall (some room) ioLive
          persistOk now newIds).created.map (·.category) =
        (classifyWithExternalAPI initialMessage roomNumber apiCall).categories.map
          (fun c => some c.category)) := by
  rw [createGuestTicket_success_unfold roomNumber g initialMessage apiCall room
    ioLive persistOk now newIds hrn him hcls]
  refine ⟨rfl, fun hok => ?_⟩
  exact createTicketsLoop_all_ok room roomNumber g _ ioLive persistOk now newIds
    _ 0 (fun j _ => hok j)

/-- Witness for C6 (amended): with both persistence calls succeeding, the
response lists both classified categories and the created tickets carry
the same categories. -/
theorem createGuestTicket_response_categories_witness :
    (createGuestTicket "101" sampleGuest "I need coffee and clean towels"
        (.ok sampleClassification) (some sampleRoom) true (fun _ => true) 0
        (fun i => toString i)).response.categories =
      some ((classifyWithExternalAPI "I need coffee and clean towels" "101"
        (.ok sampleClassification)).categories.map (·.category)) ∧
    (createGuestTicket "101" sampleGuest "I need coffee and clean towels"
        (.ok sampleClassification) (some sampleRoom) true (fun _ => true) 0
        (fun i => toString i)).created.map (·.category) =
      (classifyWithExternalAPI "I need coffee and clean towels" "101"
        (.ok sampleClassification)).categories.map (fun c => some c.category) := by
  have h := createGuestTicket_response_categories "101" sampleGuest
    "I need coffee and clean towels" (.ok sampleClassification) sampleRoom true
    (fun _ => true) 0 (fun i => toString i) (by decide) (by decide) rfl
  exact ⟨h.1, h.2 (fun _ => rfl)⟩

/-- C8: the listing endpoint returns exactly the tickets matching the
optional status and category filters, sorted most-recently-created first
(descending `createdAt`), and — being a pure function of the store — two
successive calls with no intervening writes return identical ordered
results. -/
theorem getTickets_filtered_sorted (db : List Ticket)
    (status : Option TicketStatus) (category : Option String) :
    (∀ t, t ∈ getTickets db status category ↔
      t ∈ db ∧ ticketMatchesQuery status category t = true) ∧
    (getTickets db status category).Pairwise
      (fun a b => b.createdAt ≤ a.createdAt) ∧
    getTickets db status category = getTickets db status category := by
  refine ⟨?_, ?_, rfl⟩
  · intro t
    simp [getTickets, List.mem_mergeSort, List.mem_filter]
  · have h := @List.sorted_mergeSort Ticket
      (fun a b : Ticket => decide (b.createdAt ≤ a.createdAt))
      (fun a b c hab hbc => by
        simp only [decide_eq_true_eq] at *
        omega)
      (fun a b => by
        simp only [Bool.or_eq_true, decide_eq_true_eq]
        omega)
      (db.filter (ticketMatchesQuery status category))
    exact h.imp (fun {a b} hab => by simpa using hab)

/-! ## Bucket reconciliation lemmas -/

/-- Distinct members of a ticket list with pairwise-distinct ids have
distinct ids. -/
theorem id_ne_of_nodup_ids {ts : List Ticket}
    (h : (ts.map (fun t => t.id)).Nodup) {t1 t2 : Ticket}
    (h1 : t1 ∈ ts) (h2 : t2 ∈ ts) (hne : t1 ≠ t2) : t1.id ≠ t2.id := by
  have h' : ts.Pairwise (fun a b => a.id ≠ b.id) := List.pairwise_map.1 h
  have hsym : Symmetric (fun (a b : Ticket) => a.id ≠ b.id) := by
    intro a b hab he
    exact hab he.symm
  exact h'.forall hsym h1 h2 hne

/-- Folding `bucketPush` appends, to each starting bucket, the tickets of
the corresponding status in order. -/
theorem foldl_bucketPush (ts : List Ticket) : ∀ acc : Buckets,
    ts.foldl bucketPush acc =
      { raised := acc.raised ++ ts.filter (fun t => t.status == .raised)
        in_progress :=
          acc.in_progress ++ ts.filter (fun t => t.status == .in_progress)
        completed := acc.completed ++ ts.filter (fun t => t.status == .completed) } := by
  induction ts with
  | nil => intro acc; simp
  | cons t rest ih =>
    intro acc
    rw [List.foldl_cons, ih]
    cases h : t.status <;>
      simp [bucketPush, h, List.filter_cons, List.append_assoc]

/-- `groupByStatus` computes the three status filters. -/
theorem groupByStatus_eq_filter (ts : List Ticket) :
    groupByStatus ts =
      { raised := ts.filter (fun t => t.status == .raised)
        in_progress := ts.filter (fun t => t.status == .in_progress)
        completed := ts.filter (fun t => t.status == .completed) } := by
  rw [groupByStatus, foldl_bucketPush]
  simp

/-- The three status filters of a ticket list partition its length. -/
theorem length_status_filters (ts : List Ticket) :
    (ts.filter (fun t => t.status == .raised)).length +
      (ts.filter (fun t => t.status == .in_progress)).length +
      (ts.filter (fun t => t.status == .completed)).length = ts.length := by
  induction ts with
  | nil => rfl
  | cons t rest ih =>
    cases h : t.status <;> simp [List.filter_cons, h] <;> omega

/-- C7: after a pull refresh the bucket state is a partition of the fetched
ticket list: every fetched ticket is in the bucket of its status, every
bucket member is a fetched ticket of that status, with pairwise-distinct
ids no id appears in two different buckets, the bucket lengths sum to the
list length, and the stats counters equal the bucket lengths. -/
theorem fetchData_buckets_partition (ts : List Ticket) (totalRooms : Nat) :
    (∀ t, t ∈ ts → t ∈ bucketGet (groupByStatus ts) t.status) ∧
    (∀ s t, t ∈ bucketGet (groupByStatus ts) s → t ∈ ts ∧ t.status = s) ∧
    ((ts.map (fun t => t.id)).Nodup →
      ∀ s1 s2 t1 t2, s1 ≠ s2 → t1 ∈ bucketGet (groupByStatus ts) s1 →
        t2 ∈ bucketGet (groupByStatus ts) s2 → t1.id ≠ t2.id) ∧
    (groupByStatus ts).raised.length + (groupByStatus ts).in_progress.length +
      (groupByStatus ts).completed.length = ts.length ∧
    (statsOf (groupByStatus ts) totalRooms).raisedTickets =
      (groupByStatus ts).raised.length ∧
    (statsOf (groupByStatus ts) totalRooms).inProgressTickets =
      (groupByStatus ts).in_progress.length ∧
    (statsOf (groupByStatus ts) totalRooms).completedTickets =
      (groupByStatus ts).completed.length := by
  rw [groupByStatus_eq_filter]
  refine ⟨?_, ?_, ?_, length_status_filters ts, rfl, rfl, rfl⟩
  · intro t ht
    cases h : t.status <;> simp [bucketGet, List.mem_filter, ht, h]
  · intro s t htm
    cases s <;>
      simpa [bucketGet, List.mem_filter] using htm
  · intro hnd s1 s2 t1 t2 hne hm1 hm2
    have e1 : t1 ∈ ts ∧ t1.status = s1 := by
      cases s1 <;> simpa [bucketGet, List.mem_filter] using hm1
    have e2 : t2 ∈ ts ∧ t2.status = s2 := by
      cases s2 <;> simpa [bucketGet, List.mem_filter] using hm2
    have htne : t1 ≠ t2 := by
      intro he
      exact hne (e1.2 ▸ e2.2 ▸ congrArg Ticket.status he)
    exact id_ne_of_nodup_ids hnd e1.1 e2.1 htne

/-- A sample in-progress ticket (distinct id from `sampleTicketA`). -/
def sampleTicketC : Ticket :=
  { sampleTicketA with
    id := "c"
    status := .in_progress }

/-- Witness for C7: on a concrete two-ticket snapshot with distinct ids,
the raised ticket lands in the raised bucket and its id differs from the
id of every in-progress bucket member. -/
theorem fetchData_buckets_partition_witness :
    sampleTicketA ∈ bucketGet (groupByStatus [sampleTicketA, sampleTicketC]) .raised ∧
    sampleTicketC ∈ bucketGet (groupByStatus [sampleTicketA, sampleTicketC]) .in_progress ∧
    sampleTicketA.id ≠ sampleTicketC.id := by
  have h := fetchData_buckets_partition [sampleTicketA, sampleTicketC] 0
  have hA : sampleTicketA ∈ bucketGet (groupByStatus [sampleTicketA, sampleTicketC]) .raised :=
    h.1 sampleTicketA (by simp)
  have hC : sampleTicketC ∈ bucketGet (groupByStatus [sampleTicketA, sampleTicketC]) .in_progress :=
    h.1 sampleTicketC (by simp)
  refine ⟨hA, hC, ?_⟩
  exact h.2.2.1 (by decide) .raised .in_progress sampleTicketA sampleTicketC
    (by decide) hA hC

/-- Counterexample to C5: the prior raised bucket is empty and the snapshot
contains one raised ticket with a fresh id; the claim requires a toast for
it, but the code's guard `currentRaisedCount > 0` fires no toast at all. -/
theorem newTicketToasts_counterexample :
    sampleTicketA.status = .raised ∧
    ([] : List Ticket).all (fun e => !(e.id == sampleTicketA.id)) = true ∧
    newTicketToasts [] [sampleTicketA] = [] := by
  refine ⟨rfl, rfl, rfl⟩

/-- C5 (amended): the toast list is exactly the fetched raised tickets whose
id is absent from the prior raised bucket — but only when the fetched
raised count strictly exceeds the prior raised count and the prior bucket
is non-empty; in every other case (first load, empty prior bucket, equal or
decreased count) no toast fires.  With pairwise-distinct snapshot ids each
ticket id is toasted at most once. -/
theorem newTicketToasts_spec (prevRaised snapshot : List Ticket) :
    ((snapshot.filter (fun t => t.status == .raised)).length > prevRaised.length →
      prevRaised.length > 0 →
      newTicketToasts prevRaised snapshot =
        snapshot.filter (fun t =>
          t.status == .raised && !(prevRaised.any (fun e => e.id == t.id)))) ∧
    (((snapshot.filter (fun t => t.status == .raised)).length ≤ prevRaised.length ∨
        prevRaised.length = 0) →
      newTicketToasts prevRaised snapshot = []) ∧
    ((snapshot.map (fun t => t.id)).Nodup →
      ((newTicketToasts prevRaised snapshot).map (fun t => t.id)).Nodup) := by
  refine ⟨?_, ?_, ?_⟩
  · intro hgt hpos
    rw [newTicketToasts]
    rw [if_pos ⟨hgt, hpos⟩]
  · intro hcase
    rw [newTicketToasts]
    rcases hcase with hle | hzero
    · rw [if_neg]
      intro hcontra
      omega
    · rw [if_neg]
      intro hcontra
      omega
  · intro hnd
    rw [newTicketToasts]
    split
    · exact List.Nodup.sublist
        ((List.filter_sublist snapshot).map (fun t => t.id)) hnd
    · simp

/-- Witness for C5 (amended): concrete instances of all three cases — a
strict increase from a non-empty prior bucket toasts exactly the fresh
raised ticket, an empty prior bucket toasts nothing, and the toasted ids
are distinct. -/
theorem newTicketToasts_spec_witness :
    newTicketToasts [sampleTicketA] [sampleTicketA, sampleTicketB] =
      [sampleTicketB] ∧
    newTicketToasts [] [sampleTicketA] = [] ∧
    ((newTicketToasts [] [sampleTicketA]).map (fun t => t.id)).Nodup := by
  have h := newTicketToasts_spec [sampleTicketA] [sampleTicketA, sampleTicketB]
  have h2 := newTicketToasts_spec [] [sampleTicketA]
  refine ⟨?_, h2.2.1 (Or.inr rfl), h2.2.2 (by decide)⟩
  rw [h.1 (by decide) (by decide)]
  decide

/-! ## Grouping lemmas -/

/-- Inserting a ticket under its own group key preserves the invariant that
every member of a group entry has that entry's key. -/
theorem insertIntoGroups_key_inv (key : String) (t : Ticket) :
    ∀ acc, (∀ p ∈ acc, ∀ x ∈ p.2, groupKey x = p.1) → groupKey t = key →
      ∀ p ∈ insertIntoGroups key t acc, ∀ x ∈ p.2, groupKey x = p.1 := by
  intro acc
  induction acc with
  | nil =>
    intro _ hk p hp x hx
    simp [insertIntoGroups] at hp
    subst hp
    simp at hx
    subst hx
    exact hk
  | cons q rest ih =>
    intro hinv hk p hp x hx
    by_cases hq : q.1 = key
    · simp only [insertIntoGroups] at hp
      rw [if_pos hq] at hp
      rcases List.mem_cons.mp hp with rfl | hp
      · have hx' : x ∈ q.2 ∨ x = t := by simpa using hx
        rcases hx' with hx2 | rfl
        · simpa using hinv q (List.mem_cons_self q rest) x hx2
        · simpa [hq] using hk
      · exact hinv p (List.mem_cons_of_mem q hp) x hx
    · simp only [insertIntoGroups] at hp
      rw [if_neg hq] at hp
      rcases List.mem_cons.mp hp with rfl | hp
      · exact hinv p (List.mem_cons_self p rest) x hx
      · exact ih (fun r hr => hinv r (List.mem_cons_of_mem q hr)) hk p hp x hx

/-- The key list after an insertion: unchanged when the key already has an
entry, extended by the key otherwise. -/
theorem insertIntoGroups_keys (key : String) (t : Ticket) :
    ∀ acc : List (String × List Ticket),
      (insertIntoGroups key t acc).map Prod.fst =
        if key ∈ acc.map Prod.fst then acc.map Prod.fst
        else acc.map Prod.fst ++ [key] := by
  intro acc
  induction acc with
  | nil => simp [insertIntoGroups]
  | cons q rest ih =>
    by_cases hq : q.1 = key
    · simp [insertIntoGroups, hq]
    · by_cases hk : key ∈ rest.map Prod.fst
      · simp [insertIntoGroups, hq, ih, hk, Ne.symm hq]
      · simp [insertIntoGroups, hq, ih, hk, Ne.symm hq]

/-- Insertion preserves distinctness of the group keys. -/
theorem insertIntoGroups_nodup_keys (key : String) (t : Ticket)
    (acc : List (String × List Ticket)) (h : (acc.map Prod.fst).Nodup) :
    ((insertIntoGroups key t acc).map Prod.fst).Nodup := by
  rw [insertIntoGroups_keys]
  split
  · exact h
  · case _ hk => simp [List.nodup_append, h, hk]

/-- The inserted ticket is a member of the entry carrying its key. -/
theorem insertIntoGroups_mem_self (key : String) (t : Ticket) :
    ∀ acc, ∃ p ∈ insertIntoGroups key t acc, t ∈ p.2 := by
  intro acc
  induction acc with
  | nil => exact ⟨(key, [t]), by simp [insertIntoGroups]⟩
  | cons q rest ih =>
    by_cases hq : q.1 = key
    · exact ⟨(q.1, q.2 ++ [t]), by simp [insertIntoGroups, hq]⟩
    · obtain ⟨p, hp, hm⟩ := ih
      exact ⟨p, by simp [insertIntoGroups, hq, hp], hm⟩

/-- Insertion never drops a ticket already stored in some entry. -/
theorem insertIntoGroups_mem_mono (key : String) (t x : Ticket) :
    ∀ acc, (∃ p ∈ acc, x ∈ p.2) →
      ∃ p ∈ insertIntoGroups key t acc, x ∈ p.2 := by
  intro acc
  induction acc with
  | nil =>
    intro h
    obtain ⟨p, hp, _⟩ := h
    simp at hp
  | cons q rest ih =>
    intro h
    obtain ⟨p, hp, hx⟩ := h
    rcases List.mem_cons.mp hp with rfl | hp
    · by_cases hq : p.1 = key
      · refine ⟨(p.1, p.2 ++ [t]), ?_, by simp [hx]⟩
        simp only [insertIntoGroups]
        rw [if_pos hq]
        exact List.mem_cons_self _ _
      · refine ⟨p, ?_, hx⟩
        simp only [insertIntoGroups]
        rw [if_neg hq]
        exact List.mem_cons_self _ _
    · by_cases hq : q.1 = key
      · refine ⟨p, ?_, hx⟩
        simp only [insertIntoGroups]
        rw [if_pos hq]
        exact List.mem_cons_of_mem _ hp
      · obtain ⟨r, hr, hxr⟩ := ih ⟨p, hp, hx⟩
        refine ⟨r, ?_, hxr⟩
        simp only [insertIntoGroups]
        rw [if_neg hq]
        exact List.mem_cons_of_mem _ hr

/-- The key invariant holds for the whole grouping fold. -/
theorem groupsFold_key_inv (ts : List Ticket) :
    ∀ acc, (∀ p ∈ acc, ∀ x ∈ p.2, groupKey x = p.1) →
      ∀ p ∈ ts.foldl (fun acc t => insertIntoGroups (groupKey t) t acc) acc,
        ∀ x ∈ p.2, groupKey x = p.1 := by
  induction ts with
  | nil => intro acc h; simpa using h
  | cons t rest ih =>
    intro acc h
    rw [List.foldl_cons]
    exact ih _ (insertIntoGroups_key_inv (groupKey t) t acc h rfl)

/-- Key distinctness holds for the whole grouping fold. -/
theorem groupsFold_nodup_keys (ts : List Ticket) :
    ∀ acc, (acc.map Prod.fst).Nodup →
      ((ts.foldl (fun acc t => insertIntoGroups (groupKey t) t acc) acc).map
        Prod.fst).Nodup := by
  induction ts with
  | nil => intro acc h; simpa using h
  | cons t rest ih =>
    intro acc h
    rw [List.foldl_cons]
    exact ih _ (insertIntoGroups_nodup_keys (groupKey t) t acc h)

/-- Every ticket stored in some entry stays stored through the fold. -/
theorem groupsFold_mem_mono (ts : List Ticket) (x : Ticket) :
    ∀ acc, (∃ p ∈ acc, x ∈ p.2) →
      ∃ p ∈ ts.foldl (fun acc t => insertIntoGroups (groupKey t) t acc) acc,
        x ∈ p.2 := by
  induction ts with
  | nil => intro acc h; simpa using h
  | cons t rest ih =>
    intro acc h
    rw [List.foldl_cons]
    exact ih _ (insertIntoGroups_mem_mono (groupKey t) t x acc h)

/-- Every ticket of the input ends up in some entry of the fold. -/
theorem groupsFold_mem (ts : List Ticket) (x : Ticket) :
    ∀ acc, x ∈ ts →
      ∃ p ∈ ts.foldl (fun acc t => insertIntoGroups (groupKey t) t acc) acc,
        x ∈ p.2 := by
  induction ts with
  | nil =>
    intro acc hx
    cases hx
  | cons t rest ih =>
    intro acc hx
    rw [List.foldl_cons]
    rcases List.mem_cons.mp hx with hx | hx
    · subst hx
      exact groupsFold_mem_mono rest x _ (insertIntoGroups_mem_self (groupKey x) x acc)
    · exact ih _ hx

/-- In a list of entries with pairwise-distinct keys, two entries with the
same key are the same entry. -/
theorem entry_eq_of_fst_eq {l : List (String × List Ticket)}
    (h : (l.map Prod.fst).Nodup) {p q : String × List Ticket}
    (hp : p ∈ l) (hq : q ∈ l) (hk : p.1 = q.1) : p = q := by
  by_contra hne
  have h' : l.Pairwise (fun a b => a.1 ≠ b.1) := List.pairwise_map.1 h
  have hsym : Symmetric (fun (a b : String × List Ticket) => a.1 ≠ b.1) := by
    intro a b hab he
    exact hab he.symm
  exact h'.forall hsym hp hq hne hk

/-- C4 (amended): two tickets of the pool are in a common
`groupRelatedTickets` group iff their string group keys
(`name-room-floor(createdAt/5min)`) are equal; and the related-tickets
check of the ticket dialog relates two distinct tickets with identical
guest name and room number iff their creation timestamps differ by at most
5 minutes. -/
theorem ticketGrouping_spec (ts : List Ticket) (t1 t2 : Ticket) :
    (t1 ∈ ts → t2 ∈ ts →
      ((∃ g ∈ groupRelatedTickets ts, t1 ∈ g ∧ t2 ∈ g) ↔
        groupKey t1 = groupKey t2)) ∧
    (t2.id ≠ t1.id → t2.guestInfo.name = t1.guestInfo.name →
      t2.roomNumber = t1.roomNumber →
      (isRelatedTicket t1 t2 = true ↔
        max t2.createdAt t1.createdAt - min t2.createdAt t1.createdAt ≤
          5 * 60 * 1000)) := by
  constructor
  · intro h1 h2
    constructor
    · intro hg
      obtain ⟨g, hgm, hg1, hg2⟩ := hg
      obtain ⟨p, hp, hpe⟩ := List.mem_map.mp hgm
      have hinv := groupsFold_key_inv ts [] (by simp) p hp
      rw [hinv t1 (hpe ▸ hg1), hinv t2 (hpe ▸ hg2)]
    · intro hkey
      obtain ⟨p1, hp1, hm1⟩ := groupsFold_mem ts t1 [] h1
      obtain ⟨p2, hp2, hm2⟩ := groupsFold_mem ts t2 [] h2
      have hinv := groupsFold_key_inv ts [] (by simp)
      have hk1 := hinv p1 hp1 t1 hm1
      have hk2 := hinv p2 hp2 t2 hm2
      have hnd := groupsFold_nodup_keys ts [] (by simp)
      have hpe : p1 = p2 :=
        entry_eq_of_fst_eq hnd hp1 hp2 (by rw [← hk1, ← hk2, hkey])
      refine ⟨p1.2, List.mem_map.mpr ⟨p1, hp1, rfl⟩, hm1, ?_⟩
      rw [hpe]
      exact hm2
  · intro hid hname hroom
    simp [isRelatedTicket, hid, hname, hroom]

/-- Counterexample to C4: two tickets with identical guest name and room
number created 3 minutes apart (t = 4 min and t = 7 min) straddle a
5-minute floor boundary, so `groupRelatedTickets` puts them in two
different singleton groups — refuting "3 minutes apart implies same
group". -/
theorem ticketGrouping_counterexample :
    sampleTicketA.guestInfo.name = sampleTicketB.guestInfo.name ∧
    sampleTicketA.roomNumber = sampleTicketB.roomNumber ∧
    max sampleTicketB.createdAt sampleTicketA.createdAt -
      min sampleTicketB.createdAt sampleTicketA.createdAt = 3 * 60 * 1000 ∧
    groupRelatedTickets [sampleTicketA, sampleTicketB] =
      [[sampleTicketA], [sampleTicketB]] := by
  refine ⟨rfl, rfl, by decide, by decide⟩

/-- Witness for C4 (amended): for the two sample tickets 3 minutes apart,
the same-group predicate is equivalent to equality of their group keys
(which are distinct), while the related-tickets check does relate them. -/
theorem ticketGrouping_spec_witness :
    ((∃ g ∈ groupRelatedTickets [sampleTicketA, sampleTicketB],
        sampleTicketA ∈ g ∧ sampleTicketB ∈ g) ↔
      groupKey sampleTicketA = groupKey sampleTicketB) ∧
    isRelatedTicket sampleTicketA sampleTicketB = true := by
  have h := ticketGrouping_spec [sampleTicketA, sampleTicketB] sampleTicketA sampleTicketB
  refine ⟨h.1 (by simp) (by simp), ?_⟩
  exact (h.2 (by decide) rfl rfl).mpr (by decide)

/-- C10: `getFilteredTickets` never returns a ticket whose first message
matches the greeting pattern — whatever the bucket state, status column,
search query, room filter and category filter. -/
theorem getFilteredTickets_excludes_greetings (b : Buckets) (q : String)
    (fr : Option String) (cats : List String) (status : TicketStatus)
    (t : Ticket) (hg : ticketIsGreeting t = true) :
    t ∉ getFilteredTickets b q fr cats status := by
  intro hmem
  simp only [getFilteredTickets] at hmem
  have h3 := (List.mem_filter.mp hmem).1
  have h2 : t ∈ (if q = "" then
      (bucketGet b status).filter (fun t => !(ticketIsGreeting t))
    else ((bucketGet b status).filter (fun t => !(ticketIsGreeting t))).filter
      (matchesSearch q)) := by
    cases fr with
    | none => exact h3
    | some r => exact (List.mem_filter.mp h3).1
  have h1 : t ∈ (bucketGet b status).filter (fun t => !(ticketIsGreeting t)) := by
    by_cases hq : q = ""
    · simpa [hq] using h2
    · rw [if_neg hq] at h2
      exact (List.mem_filter.mp h2).1
  have hkeep := (List.mem_filter.mp h1).2
  rw [hg] at hkeep
  simp at hkeep

/-- Witness for C10: the sample greeting ticket sits in the raised bucket
but is excluded from the rendered raised column. -/
theorem getFilteredTickets_excludes_greetings_witness :
    ticketIsGreeting sampleGreetingTicket = true ∧
    sampleGreetingTicket ∈
      bucketGet ⟨[sampleGreetingTicket], [], []⟩ .raised ∧
    sampleGreetingTicket ∉
      getFilteredTickets ⟨[sampleGreetingTicket], [], []⟩ "" none
        ["reception"] .raised := by
  refine ⟨by decide, by simp [bucketGet], ?_⟩
  exact getFilteredTickets_excludes_greetings _ _ _ _ _ _ (by decide)

end GuestFlow
